import Mathlib

/-
Shallow embedding of the fleet trading simulator
(DataManager, AIAgent, TradingEngine, FleetAIApp import path).

Modelling conventions:
* JS numbers are modelled as rationals; toFixed(k) followed by parseFloat is
  modelled as exact rounding to k decimal places.
* Timestamps and Date.now based ids are not modelled: no claim mentions them.
* The decision "type" strings and the market sentiment strings form closed
  enumerations in the source, so they are embedded as inductive types.
* localStorage persistence (saveData) is modelled as a write counter on the
  store, enough to observe whether and how often a state was persisted.
* DOM rendering calls are no-ops on the modelled state and are omitted.
-/

namespace Fleet

/-- Exact rounding to two decimal places, the model of parseFloat(x.toFixed(2)). -/
def round2 (q : ℚ) : ℚ := (round (q * 100) : ℚ) / 100

/-- Exact rounding to one decimal place, the model of parseFloat(x.toFixed(1)). -/
def round1 (q : ℚ) : ℚ := (round (q * 10) : ℚ) / 10

/-- Bot status, the closed set of values of the status field in the source. -/
inductive Status
  | active
  | inactive
deriving DecidableEq, Repr

/-- One trading bot, the fields of the bot records in DataManager relevant to the
claims (the static name/type/strategy strings other than name are not read by
any modelled operation). -/
structure Bot where
  id : ℕ
  name : String
  status : Status
  riskLevel : ℚ
  profit : ℚ
  trades : ℕ
  successRate : ℚ
  performance : ℚ
deriving DecidableEq, Repr

/-- One entry of the trading history; only botId and profit are read by the
modelled operations (success is derived as profit > 0). -/
structure Trade where
  botId : ℕ
  profit : ℚ
deriving DecidableEq, Repr

/-- The closed set of decision categories appearing in addAIDecision calls. -/
inductive DKind
  | system
  | emergency
  | bot_control
  | optimization
  | strategy
  | portfolio_health
deriving DecidableEq, Repr

/-- One entry of the AI decision log. -/
structure Decision where
  type : DKind
  message : String
  confidence : ℚ
deriving DecidableEq, Repr

/-- The DataManager state: bots, the two capped logs, and a persistence write
counter modelling the number of saveData calls. -/
structure Store where
  bots : List Bot
  tradingHistory : List Trade
  aiDecisions : List Decision
  saveCount : ℕ
deriving DecidableEq, Repr

/-- saveData: a full write-through persist of the snapshot, modelled as
incrementing the write counter. -/
def saveData (s : Store) : Store :=
  { s with saveCount := s.saveCount + 1 }

/-- Applies f to the first element satisfying p, the model of mutating the
object returned by Array.prototype.find via Object.assign. -/
def updateFirst (p : α → Bool) (f : α → α) : List α → List α
  | [] => []
  | a :: l => if p a then f a :: l else a :: updateFirst p f l

/-- DataManager.updateBot: find the bot by id; if found, assign the updates
onto it and persist, returning true; otherwise return false.  The updates
object is modelled by the field-update function f. -/
def updateBotWith (s : Store) (botId : ℕ) (f : Bot → Bot) : Store × Bool :=
  match s.bots.find? (fun b => decide (b.id = botId)) with
  | some _ =>
      (saveData { s with bots := updateFirst (fun b => decide (b.id = botId)) f s.bots }, true)
  | none => (s, false)

/-- DataManager.addTrade: unshift the new trade, keep only the newest 1000
entries, persist. -/
def addTrade (s : Store) (t : Trade) : Store :=
  saveData { s with tradingHistory := (t :: s.tradingHistory).take 1000 }

/-- DataManager.addAIDecision: unshift the new decision, keep only the newest
100 entries, persist. -/
def addAIDecision (s : Store) (d : Decision) : Store :=
  saveData { s with aiDecisions := (d :: s.aiDecisions).take 100 }

/-- The result record of DataManager.getBotPerformance. -/
structure Performance where
  totalTrades : ℕ
  profitableTrades : ℕ
  successRate : ℚ
  totalProfit : ℚ
deriving DecidableEq, Repr

/-- DataManager.getBotPerformance: counts and sums over the trades of the given
bot currently present in the (capped) trading history. -/
def getBotPerformance (s : Store) (botId : ℕ) : Performance :=
  let botTrades := s.tradingHistory.filter (fun t => decide (t.botId = botId))
  let totalTrades := botTrades.length
  let profitableTrades := (botTrades.filter (fun t => decide (0 < t.profit))).length
  let totalProfit := (botTrades.map Trade.profit).sum
  { totalTrades := totalTrades
    profitableTrades := profitableTrades
    successRate := if 0 < totalTrades then (profitableTrades : ℚ) / (totalTrades : ℚ) * 100 else 0
    totalProfit := totalProfit }

/-- The successRate currently stored on the bot record with the given id
(0 if no such bot), read the same way the source reads bots.find. -/
def storedRate (s : Store) (botId : ℕ) : ℚ :=
  match s.bots.find? (fun b => decide (b.id = botId)) with
  | some b => b.successRate
  | none => 0

/-- The first default bot of DataManager.defaultData. -/
def alphaBot : Bot :=
  { id := 1, name := "Alpha Arbitrage", status := .inactive, riskLevel := 0.3,
    profit := 0, trades := 0, successRate := 0, performance := 0 }

/-- The five default bots of DataManager.defaultData (profit/trades/successRate
all zero, status inactive). -/
def defaultBots : List Bot :=
  [ alphaBot,
    { id := 2, name := "Beta Momentum", status := .inactive, riskLevel := 0.5,
      profit := 0, trades := 0, successRate := 0, performance := 0 },
    { id := 3, name := "Gamma Market Maker", status := .inactive, riskLevel := 0.4,
      profit := 0, trades := 0, successRate := 0, performance := 0 },
    { id := 4, name := "Delta Scalper", status := .inactive, riskLevel := 0.6,
      profit := 0, trades := 0, successRate := 0, performance := 0 },
    { id := 5, name := "Epsilon AI", status := .inactive, riskLevel := 0.7,
      profit := 0, trades := 0, successRate := 0, performance := 0 } ]

/-- The default store produced on first load. -/
def defaultStore : Store :=
  { bots := defaultBots, tradingHistory := [], aiDecisions := [], saveCount := 0 }

/-! AIAgent -/

/-- The closed set of sentiment strings produced by calculateMarketSentiment. -/
inductive Sentiment
  | strong_bull
  | bull
  | bear
  | strong_bear
  | neutral
deriving DecidableEq, Repr

/-- The per-bot rolling performance metrics of a bot learning model. -/
structure Metrics where
  winRate : ℚ
  avgProfit : ℚ
  riskAdjustedReturn : ℚ
deriving DecidableEq, Repr

/-- One bot learning model; trade history entries are reduced to their profit,
the only field the metric computation reads. -/
structure BotModel where
  tradeHistory : List ℚ
  metrics : Metrics
deriving DecidableEq, Repr

/-- The agent market analysis record (timestamp omitted). -/
structure Analysis where
  volatility : ℚ
  trend : ℚ
  volume : ℚ
  sentiment : Sentiment
deriving DecidableEq, Repr

/-- The AIAgent state: one learning model per bot id, the overall confidence,
and the current market analysis. -/
structure Agent where
  botModels : List (ℕ × BotModel)
  overallConfidence : ℚ
  marketAnalysis : Analysis
deriving DecidableEq, Repr

/-- AIAgent.calculateMarketSentiment, with the exact threshold bands of the
source. -/
def calculateMarketSentiment (trend volatility : ℚ) : Sentiment :=
  if 0.5 < trend ∧ volatility < 0.03 then .strong_bull
  else if 0.2 < trend ∧ volatility < 0.05 then .bull
  else if trend < -0.5 ∧ 0.08 < volatility then .strong_bear
  else if trend < -0.2 ∧ 0.05 < volatility then .bear
  else .neutral

/-- The last n elements of a list, the model of Array.prototype.slice(-n). -/
def lastN (n : ℕ) (l : List ℚ) : List ℚ := l.drop (l.length - n)

/-- The rolling metric computation of AIAgent.updateBotModel over a window of
recent trades: winRate, avgProfit, and riskAdjustedReturn with the
(winRate / 100 || 1) denominator. -/
def computeMetrics (recent : List ℚ) : Metrics :=
  let winning := (recent.filter (fun p => decide (0 < p))).length
  let totalProfit := recent.sum
  let winRate := (winning : ℚ) / (recent.length : ℚ) * 100
  let avgProfit := totalProfit / (recent.length : ℚ)
  { winRate := winRate
    avgProfit := avgProfit
    riskAdjustedReturn := avgProfit / (if winRate = 0 then 1 else winRate / 100) }

/-- AIAgent.updateBotModel: returns the model unchanged while the history holds
fewer than 10 entries, otherwise recomputes the metrics over the 20 most
recent entries. -/
def updateBotModel (m : BotModel) : BotModel :=
  if m.tradeHistory.length < 10 then m
  else { m with metrics := computeMetrics (lastN 20 m.tradeHistory) }

/-- AIAgent.learnFromTrade on one model: push the outcome, cap the history at
the most recent 100 entries, then run updateBotModel. -/
def learnFromTrade (m : BotModel) (profit : ℚ) : BotModel :=
  let h := m.tradeHistory ++ [profit]
  let h := if 100 < h.length then h.drop (h.length - 100) else h
  updateBotModel { m with tradeHistory := h }

/-- AIAgent.getConfidence: if either the learning model or the bot record is
missing, return 50; otherwise adjust the overall confidence by the performance
terms, scale by riskLevel, and clamp to the 20..95 band. -/
def getConfidence (ag : Agent) (s : Store) (botId : ℕ) : ℚ :=
  let model := ag.botModels.find? (fun p => decide (p.1 = botId))
  let bot := s.bots.find? (fun b => decide (b.id = botId))
  let performance := getBotPerformance s botId
  match model, bot with
  | some _, some b =>
      max 20 (min 95
        ((ag.overallConfidence + (performance.successRate - 50) / 2
            + min 20 (performance.totalProfit / 10)) * b.riskLevel))
  | _, _ => 50

/-! Per-bot risk level updates used by the adaptive adjustments -/

/-- Risk update of activateAggressiveStrategies: min(0.9, r + 0.1). -/
def aggressiveRisk (r : ℚ) : ℚ := min 0.9 (r + 0.1)

/-- Risk update of activateDefensiveStrategies: max(0.1, r - 0.15). -/
def defensiveRisk (r : ℚ) : ℚ := max 0.1 (r - 0.15)

/-- Risk update of adjustRiskParameters: max(0.1, min(0.9, r + adjustment)). -/
def nudgeRisk (adjustment r : ℚ) : ℚ := max 0.1 (min 0.9 (r + adjustment))

/-- Risk update of the low-success branch of optimizeBot: max(0.1, r - 0.2). -/
def optimizeDownRisk (r : ℚ) : ℚ := max 0.1 (r - 0.2)

/-- Risk update of the high-performance branch of optimizeBot: min(0.9, r + 0.15). -/
def optimizeUpRisk (r : ℚ) : ℚ := min 0.9 (r + 0.15)

/-- Iterate over the current bots list and, for each bot satisfying cond,
update the bot with that id in the evolving store, the model of the
forEach-over-bots / updateBot pattern of the agent and scheduler. The updates
of each step are computed from the iterated element b, exactly as the source
closes over the forEach variable. -/
def forEachUpdate (cond : Bot → Bool) (F : Bot → Bot → Bot) (s : Store) : Store :=
  s.bots.foldl (fun acc b => if cond b then (updateBotWith acc b.id (F b)).1 else acc) s

/-- The status test used by the forEach filters in the source. -/
def isActive (b : Bot) : Bool := decide (b.status = Status.active)

/-- AIAgent.activateAggressiveStrategies: raise every active bot risk by 0.1
(capped at 0.9) and log one strategy decision. -/
def activateAggressiveStrategies (s : Store) : Store :=
  let s := forEachUpdate isActive
    (fun b c => { c with riskLevel := aggressiveRisk b.riskLevel }) s
  addAIDecision s
    { type := .strategy
      message := "Bull market detected: Activated aggressive trading strategies"
      confidence := 80 }

/-- AIAgent.activateDefensiveStrategies: lower every active bot risk by 0.15
(floored at 0.1) and log one strategy decision. -/
def activateDefensiveStrategies (s : Store) : Store :=
  let s := forEachUpdate isActive
    (fun b c => { c with riskLevel := defensiveRisk b.riskLevel }) s
  addAIDecision s
    { type := .strategy
      message := "Bear market detected: Activated defensive trading strategies"
      confidence := 75 }

/-- AIAgent.activateBalancedStrategies: log one strategy decision, no risk
change. -/
def activateBalancedStrategies (s : Store) : Store :=
  addAIDecision s
    { type := .strategy
      message := "Neutral market: Maintaining balanced portfolio allocation"
      confidence := 70 }

/-- AIAgent.adjustRiskParameters: clamp-adjust every active bot risk. -/
def adjustRiskParameters (adjustment : ℚ) (s : Store) : Store :=
  forEachUpdate isActive
    (fun b c => { c with riskLevel := nudgeRisk adjustment b.riskLevel }) s

/-- AIAgent.makeStrategicDecisions.  The bull and strong_bear switch arms call
this.activateGrowthStrategies and this.activateHedgingStrategies, methods that
are defined nowhere in the repository, so those arms throw a TypeError at
runtime; this is embedded as an error result.  The volatility based risk
nudge runs after a successful sentiment arm. -/
def makeStrategicDecisions (ag : Agent) (s : Store) : Except String Store :=
  let afterSentiment : Except String Store :=
    match ag.marketAnalysis.sentiment with
    | .strong_bull => .ok (activateAggressiveStrategies s)
    | .bull => .error "TypeError: this.activateGrowthStrategies is not a function"
    | .bear => .ok (activateDefensiveStrategies s)
    | .strong_bear => .error "TypeError: this.activateHedgingStrategies is not a function"
    | .neutral => .ok (activateBalancedStrategies s)
  match afterSentiment with
  | .error e => .error e
  | .ok s1 =>
      if 0.08 < ag.marketAnalysis.volatility then .ok (adjustRiskParameters (-0.1) s1)
      else if ag.marketAnalysis.volatility < 0.03 then .ok (adjustRiskParameters 0.05 s1)
      else .ok s1

/-- The result record of AIAgent.optimizeBot; botName and confidence are absent
(undefined) on the failure path. -/
structure OptResult where
  success : Bool
  botName : Option String
  message : String
  confidence : Option ℚ
deriving DecidableEq, Repr

/-- AIAgent.optimizeBot: not-found failure result when the bot or its model is
missing; otherwise one of the three recalibration branches (the message texts
with interpolated percentages are abbreviated to their fixed prefixes). -/
def optimizeBot (ag : Agent) (s : Store) (botId : ℕ) : OptResult × Store :=
  let bot := s.bots.find? (fun b => decide (b.id = botId))
  let model := ag.botModels.find? (fun p => decide (p.1 = botId))
  let performance := getBotPerformance s botId
  match bot, model with
  | some b, some _ =>
      if performance.successRate < 40 then
        let s := (updateBotWith s botId
          (fun c => { c with riskLevel := optimizeDownRisk b.riskLevel })).1
        ({ success := true, botName := some b.name,
           message := "Reduced risk due to low success rate", confidence := some 80 }, s)
      else if 70 < performance.successRate ∧ 50 < performance.totalProfit then
        let s := (updateBotWith s botId
          (fun c => { c with riskLevel := optimizeUpRisk b.riskLevel })).1
        ({ success := true, botName := some b.name,
           message := "Increased risk due to strong performance", confidence := some 85 }, s)
      else
        ({ success := true, botName := some b.name,
           message := "Maintaining current parameters", confidence := some 70 }, s)
  | _, _ =>
      ({ success := false, botName := none, message := "Bot not found", confidence := none }, s)

/-! TradingEngine (scheduler and trading cycle) -/

/-- The TradingEngine state relevant to the claims: the shared store and the
running flag.  Interval handles are timer registrations with no effect on the
modelled state and are omitted. -/
structure Engine where
  store : Store
  isRunning : Bool
deriving DecidableEq, Repr

/-- The system decision appended by TradingEngine.startAllBots. -/
def fleetActivatedDecision : Decision :=
  { type := .system, message := "All trading bots activated", confidence := 95 }

/-- The system decision appended by AIAgent.startMonitoring. -/
def monitoringDecision : Decision :=
  { type := .system, message := "AI Agent started continuous market monitoring", confidence := 95 }

/-- AIAgent.startMonitoring, store effect only: registering the monitoring
interval does not change the store; the method then appends one system
decision. -/
def startMonitoring (s : Store) : Store :=
  addAIDecision s monitoringDecision

/-- TradingEngine.startAllBots: no-op when already running; otherwise set the
running flag, set every bot status to active through updateBot, append the
fleet activation decision, start the trading cycle timer (no store effect),
and let the agent start monitoring (which appends its own system decision). -/
def startAllBots (e : Engine) : Engine :=
  if e.isRunning then e
  else
    let s := forEachUpdate (fun _ => true) (fun _ c => { c with status := Status.active }) e.store
    let s := addAIDecision s fleetActivatedDecision
    let s := startMonitoring s
    { store := s, isRunning := true }

/-- The bot_control decision appended by TradingEngine.toggleBot. -/
def toggleDecision (name : String) (newStatus : Status) : Decision :=
  { type := .bot_control
    message := name ++ (if newStatus = Status.active then " activated" else " deactivated")
    confidence := 90 }

/-- The new status computed by toggleBot: active becomes inactive and
conversely. -/
def flipStatus (st : Status) : Status :=
  if st = Status.active then Status.inactive else Status.active

/-- TradingEngine.toggleBot: find the bot; if present, flip its status through
updateBot and append one bot_control decision naming the bot and its new
state; if absent, do nothing.  The JS function has no return statement, so its
return value is undefined in every case. -/
def toggleBot (e : Engine) (botId : ℕ) : Engine :=
  match e.store.bots.find? (fun b => decide (b.id = botId)) with
  | none => e
  | some bot =>
      let newStatus := flipStatus bot.status
      let s := (updateBotWith e.store botId (fun c => { c with status := newStatus })).1
      let s := addAIDecision s (toggleDecision bot.name newStatus)
      { e with store := s }

/-- The return value of TradingEngine.toggleBot: the function body contains no
return statement, so the caller receives undefined whether or not the bot id
exists. -/
def toggleBotReturn (_e : Engine) (_botId : ℕ) : Unit := ()

/-- The executed branch of TradingEngine.executeBotTrade on the store, with the
trade profit (a random draw in the source) passed as a parameter: read the
performance counts from the current capped history, store the incremented
counts and the rounded success rate onto the bot, then append the trade
record (which may evict the oldest history entry at the 1000 cap).  The agent
learning hook touches only the agent, not the store. -/
def executeTrade (s : Store) (bot : Bot) (profit : ℚ) : Store :=
  let performance := getBotPerformance s bot.id
  let newTrades := performance.totalTrades + 1
  let newProfitable := performance.profitableTrades + (if 0 < profit then 1 else 0)
  let newSuccessRate := (newProfitable : ℚ) / (newTrades : ℚ) * 100
  let s := (updateBotWith s bot.id (fun c =>
    { c with profit := performance.totalProfit + profit,
             trades := newTrades,
             successRate := round2 newSuccessRate,
             performance := round1 (newSuccessRate * 0.6 + max 0 (profit * 10) * 0.4) })).1
  addTrade s { botId := bot.id, profit := profit }

/-! FleetAIApp import path -/

/-- A parsed import file: each of the three required keys is present (some) or
missing (none).  Any present array value is truthy in JS, so presence is what
the validation observes. -/
structure ImportFile where
  bots : Option (List Bot)
  tradingHistory : Option (List Trade)
  aiDecisions : Option (List Decision)

/-- FleetAIApp.importData: when all of bots, tradingHistory and aiDecisions are
present, replace those three store fields and persist, reporting success;
otherwise report failure and leave the store untouched (no persist). -/
def importData (s : Store) (f : ImportFile) : Store × Bool :=
  match f.bots, f.tradingHistory, f.aiDecisions with
  | some bs, some th, some ds =>
      (saveData { s with bots := bs, tradingHistory := th, aiDecisions := ds }, true)
  | _, _, _ => (s, false)

/-! Derived observations and concrete inputs used by the theorems -/

/-- The closed set of per-bot riskLevel rewrites performed by the adaptive
adjustments: the strong_bull strategy raise, the bear strategy cut, the two
volatility nudges of makeStrategicDecisions, and the two optimizeBot
recalibrations. -/
inductive RiskAdj
  | aggressive
  | defensive
  | nudgeHighVol
  | nudgeLowVol
  | optimizeDown
  | optimizeUp
deriving DecidableEq, Repr

/-- Apply one adaptive adjustment to a riskLevel, using the same per-bot
update functions the store operations use. -/
def applyRiskAdj : RiskAdj → ℚ → ℚ
  | .aggressive, r => aggressiveRisk r
  | .defensive, r => defensiveRisk r
  | .nudgeHighVol, r => nudgeRisk (-0.1) r
  | .nudgeLowVol, r => nudgeRisk 0.05 r
  | .optimizeDown, r => optimizeDownRisk r
  | .optimizeUp, r => optimizeUpRisk r

/-- Number of system category decisions in a decision log. -/
def countSystem (l : List Decision) : ℕ :=
  (l.filter (fun d => decide (d.type = DKind.system))).length

/-- A market analysis as analyzeMarketConditions would build it from a snapshot
with mean change -0.6 and mean absolute change 0.09: the sentiment
classification yields strong_bear. -/
def bearishAnalysis : Analysis :=
  { volatility := 0.09, trend := -0.6, volume := 0,
    sentiment := calculateMarketSentiment (-0.6) 0.09 }

/-- An agent holding the strong_bear analysis. -/
def bearishAgent : Agent :=
  { botModels := [], overallConfidence := 75, marketAnalysis := bearishAnalysis }

/-- A freshly initialized engine over the default store. -/
def defaultEngine : Engine := { store := defaultStore, isRunning := false }

/-- A learning model with nine recorded outcomes and metrics still at their
initial zeros. -/
def nineTradeModel : BotModel :=
  { tradeHistory := [1, 1, 1, 1, 1, 1, 1, 1, 1], metrics := ⟨0, 0, 0⟩ }

/-- A losing trade of bot 1. -/
def loserTrade : Trade := { botId := 1, profit := -1 }

/-- A winning trade of bot 1. -/
def winnerTrade : Trade := { botId := 1, profit := 1 }

/-- A trading history at the 1000 entry cap, all for bot 1: the 500 newest
entries are losses, the 500 oldest are wins. -/
def fullHistory : List Trade :=
  List.replicate 500 loserTrade ++ List.replicate 500 winnerTrade

/-- Bot 1 in a state consistent with fullHistory. -/
def botOne : Bot :=
  { id := 1, name := "Alpha Arbitrage", status := .active, riskLevel := 0.3,
    profit := 0, trades := 1000, successRate := 50, performance := 0 }

/-- A store whose trading history sits exactly at the 1000 entry cap. -/
def fullStore : Store :=
  { bots := [botOne], tradingHistory := fullHistory, aiDecisions := [], saveCount := 0 }

/-- An empty agent, for claims that need some agent with no learning models. -/
def emptyAgent : Agent :=
  { botModels := [], overallConfidence := 75,
    marketAnalysis := { volatility := 0, trend := 0, volume := 0, sentiment := .neutral } }

/-! Helper lemmas -/

theorem updateFirst_append (p : α → Bool) (f : α → α) :
    ∀ (pre : List α) (b : α) (l : List α), (∀ a ∈ pre, p a = false) → p b = true →
      updateFirst p f (pre ++ b :: l) = pre ++ f b :: l
  | [], b, l, _, hb => by simp [updateFirst, hb]
  | a :: pre, b, l, hpre, hb => by
      have ha : p a = false := hpre a (List.mem_cons_self a pre)
      simp only [List.cons_append, updateFirst, ha, Bool.false_eq_true, if_false]
      exact congrArg (List.cons a)
        (updateFirst_append p f pre b l (fun x hx => hpre x (List.mem_cons_of_mem a hx)) hb)

theorem find?_append_cons (p : α → Bool) :
    ∀ (pre : List α) (b : α) (l : List α), (∀ a ∈ pre, p a = false) → p b = true →
      (pre ++ b :: l).find? p = some b
  | [], b, l, _, hb => by simp [List.find?, hb]
  | a :: pre, b, l, hpre, hb => by
      have ha : p a = false := hpre a (List.mem_cons_self a pre)
      simp only [List.cons_append, List.find?, ha]
      exact find?_append_cons p pre b l (fun x hx => hpre x (List.mem_cons_of_mem a hx)) hb

theorem find?_id_of_nodup :
    ∀ (l : List Bot), (l.map Bot.id).Nodup → ∀ b ∈ l,
      l.find? (fun c => decide (c.id = b.id)) = some b
  | [], _, b, hb => by cases hb
  | a :: l, hnd, b, hb => by
      rw [List.map_cons, List.nodup_cons] at hnd
      by_cases h : a.id = b.id
      · have hba : b = a := by
          rcases List.mem_cons.mp hb with h1 | h1
          · exact h1
          · exact absurd (h ▸ List.mem_map_of_mem Bot.id h1) hnd.1
        subst hba
        simp [List.find?]
      · have hbl : b ∈ l := by
          rcases List.mem_cons.mp hb with h1 | h1
          · exact absurd (h1 ▸ rfl) h
          · exact h1
        have hd : decide (a.id = b.id) = false := by simp [h]
        simp only [List.find?, hd]
        exact find?_id_of_nodup l hnd.2 b hbl

theorem map_if_id (i : ℕ) (f : Bot → Bot) (l : List Bot) (h : ∀ c ∈ l, c.id ≠ i) :
    l.map (fun c => if c.id = i then f c else c) = l := by
  induction l with
  | nil => rfl
  | cons a l ih =>
      rw [List.map_cons, if_neg (h a (List.mem_cons_self a l)),
        ih (fun c hc => h c (List.mem_cons_of_mem a hc))]

theorem updateFirst_eq_map_of_nodup (i : ℕ) (f : Bot → Bot) :
    ∀ (l : List Bot), (l.map Bot.id).Nodup →
      updateFirst (fun c => decide (c.id = i)) f l
        = l.map (fun c => if c.id = i then f c else c)
  | [], _ => rfl
  | a :: l, hnd => by
      rw [List.map_cons, List.nodup_cons] at hnd
      by_cases h : a.id = i
      · have hl : ∀ c ∈ l, c.id ≠ i := by
          intro c hc hci
          exact hnd.1 (h ▸ hci ▸ List.mem_map_of_mem Bot.id hc)
        have hd : decide (a.id = i) = true := by simp [h]
        simp only [updateFirst, hd, if_true, List.map_cons, if_pos h]
        rw [map_if_id i f l hl]
      · have hd : decide (a.id = i) = false := by simp [h]
        simp only [updateFirst, hd, Bool.false_eq_true, if_false, List.map_cons, if_neg h]
        exact congrArg (List.cons a) (updateFirst_eq_map_of_nodup i f l hnd.2)

theorem find?_updateFirst (i : ℕ) (f : Bot → Bot) (hf : ∀ c, (f c).id = c.id) :
    ∀ (l : List Bot),
      (updateFirst (fun c => decide (c.id = i)) f l).find? (fun c => decide (c.id = i))
        = (l.find? (fun c => decide (c.id = i))).map f
  | [] => rfl
  | a :: l => by
      by_cases h : a.id = i
      · have hfa : (f a).id = i := (hf a).trans h
        simp [updateFirst, List.find?, h, hfa]
      · have hd : decide (a.id = i) = false := by simp [h]
        simp only [updateFirst, hd, Bool.false_eq_true, if_false, List.find?]
        exact find?_updateFirst i f hf l

theorem foldl_update_aux (cond : Bot → Bool) (F : Bot → Bot → Bot)
    (hid : ∀ b c, (F b c).id = c.id) :
    ∀ (l pre : List Bot) (s : Store), s.bots = pre ++ l →
      ((pre ++ l).map Bot.id).Nodup →
      List.foldl (fun acc b => if cond b then (updateBotWith acc b.id (F b)).1 else acc) s l
        = { s with bots := pre ++ l.map (fun b => if cond b then F b b else b),
                   saveCount := s.saveCount + l.countP cond }
  | [], pre, s, hbots, _ => by
      obtain ⟨bots, th, ds, sc⟩ := s
      simp only [List.append_nil] at hbots ⊢
      simp [hbots]
  | b :: l, pre, s, hbots, hnd => by
      have hdisj : ∀ a ∈ pre, (fun c => decide (c.id = b.id)) a = false := by
        intro a ha
        simp only [decide_eq_false_iff_not]
        intro hai
        rw [List.map_append, List.nodup_append] at hnd
        exact hnd.2.2 (List.mem_map_of_mem Bot.id ha)
          (by rw [hai]; exact List.mem_cons_self _ _)
      have hpb : (fun c => decide (c.id = b.id)) b = true := by simp
      by_cases hc : cond b = true
      · have hstep :
            (if cond b then (updateBotWith s b.id (F b)).1 else s)
              = { s with bots := pre ++ F b b :: l, saveCount := s.saveCount + 1 } := by
          rw [if_pos hc]
          unfold updateBotWith
          rw [hbots, find?_append_cons _ pre b l hdisj hpb]
          simp only [saveData]
          rw [updateFirst_append _ (F b) pre b l hdisj hpb]
        rw [List.foldl_cons, hstep,
          foldl_update_aux cond F hid l (pre ++ [F b b])
            { s with bots := pre ++ F b b :: l, saveCount := s.saveCount + 1 }
            (by simp) (by
              have hids : ((pre ++ [F b b]) ++ l).map Bot.id = (pre ++ b :: l).map Bot.id := by
                simp [hid]
              rw [hids]; exact hnd)]
        simp only [List.map_cons, List.countP_cons, hc, if_pos, List.append_assoc,
          List.cons_append, List.nil_append, Store.mk.injEq]
        refine ⟨trivial, trivial, trivial, ?_⟩
        omega
      · have hcf : cond b = false := by
          cases hcb : cond b
          · rfl
          · exact absurd hcb hc
        rw [List.foldl_cons, if_neg (by simp [hcf]),
          foldl_update_aux cond F hid l (pre ++ [b]) s
            (by rw [hbots]; simp) (by simpa using hnd)]
        simp only [List.map_cons, List.countP_cons, hcf, Bool.false_eq_true, if_false,
          List.append_assoc, List.cons_append, List.nil_append, Store.mk.injEq]
        exact ⟨trivial, trivial, trivial, by omega⟩

theorem forEachUpdate_eq (cond : Bot → Bool) (F : Bot → Bot → Bot)
    (hid : ∀ b c, (F b c).id = c.id) (s : Store) (hnd : (s.bots.map Bot.id).Nodup) :
    forEachUpdate cond F s
      = { s with bots := s.bots.map (fun b => if cond b then F b b else b),
                 saveCount := s.saveCount + s.bots.countP cond } :=
  foldl_update_aux cond F hid s.bots [] s rfl (by simpa using hnd)

theorem abs_round2_sub_le (q : ℚ) : |round2 q - q| ≤ 1 / 100 := by
  have h : |q * 100 - (round (q * 100) : ℚ)| ≤ 1 / 2 := abs_sub_round (q * 100)
  have heq : round2 q - q = ((round (q * 100) : ℚ) - q * 100) / 100 := by
    unfold round2; ring
  rw [heq, abs_div, abs_sub_comm]
  have h100 : |(100 : ℚ)| = 100 := by norm_num
  rw [h100]
  linarith

theorem lastN_length (n : ℕ) (l : List ℚ) : (lastN n l).length = min n l.length := by
  unfold lastN
  rw [List.length_drop]
  omega

theorem updateBotModel_tradeHistory (m : BotModel) :
    (updateBotModel m).tradeHistory = m.tradeHistory := by
  unfold updateBotModel
  split <;> rfl

theorem applyRiskAdj_bounds (a : RiskAdj) (r : ℚ) (h1 : 0.1 ≤ r) (h2 : r ≤ 0.9) :
    0.1 ≤ applyRiskAdj a r ∧ applyRiskAdj a r ≤ 0.9 := by
  cases a with
  | aggressive =>
      exact ⟨le_min (by norm_num) (by linarith), min_le_left _ _⟩
  | defensive =>
      exact ⟨le_max_left _ _, max_le (by norm_num) (by linarith)⟩
  | nudgeHighVol =>
      exact ⟨le_max_left _ _, max_le (by norm_num) (min_le_left _ _)⟩
  | nudgeLowVol =>
      exact ⟨le_max_left _ _, max_le (by norm_num) (min_le_left _ _)⟩
  | optimizeDown =>
      exact ⟨le_max_left _ _, max_le (by norm_num) (by linarith)⟩
  | optimizeUp =>
      exact ⟨le_min (by norm_num) (by linarith), min_le_left _ _⟩

theorem filter_replicate (p : α → Bool) (a : α) (n : ℕ) :
    (List.replicate n a).filter p = if p a then List.replicate n a else [] := by
  induction n with
  | zero => simp
  | succ n ih =>
      cases hpa : p a <;>
        simp [List.replicate_succ, List.filter_cons, hpa, ih]

theorem executeTrade_tradingHistory (s : Store) (bot : Bot) (profit : ℚ) :
    (executeTrade s bot profit).tradingHistory
      = ({ botId := bot.id, profit := profit } :: s.tradingHistory).take 1000 := by
  unfold executeTrade addTrade saveData updateBotWith
  cases s.bots.find? (fun b => decide (b.id = bot.id)) <;> rfl

theorem executeTrade_storedRate (s : Store) (bot : Bot) (profit : ℚ) (b : Bot)
    (hfind : s.bots.find? (fun c => decide (c.id = bot.id)) = some b) :
    storedRate (executeTrade s bot profit) bot.id
      = round2 ((((getBotPerformance s bot.id).profitableTrades
            + (if 0 < profit then 1 else 0) : ℕ) : ℚ)
          / (((getBotPerformance s bot.id).totalTrades + 1 : ℕ) : ℚ) * 100) := by
  simp only [executeTrade, addTrade, saveData, updateBotWith, storedRate, hfind]
  rw [find?_updateFirst bot.id, hfind]
  · rfl
  · intro c
    rfl

theorem getBotPerformance_cons (s s' : Store) (botId : ℕ) (profit : ℚ)
    (h : s'.tradingHistory = { botId := botId, profit := profit } :: s.tradingHistory) :
    (getBotPerformance s' botId).totalTrades = (getBotPerformance s botId).totalTrades + 1
    ∧ (getBotPerformance s' botId).profitableTrades
        = (getBotPerformance s botId).profitableTrades + (if 0 < profit then 1 else 0) := by
  unfold getBotPerformance
  rw [h]
  constructor
  · simp [List.filter_cons]
  · by_cases hp : (0 : ℚ) < profit
    · simp [List.filter_cons, hp]
    · simp [List.filter_cons, hp]

theorem getBotPerformance_successRate (s : Store) (botId : ℕ)
    (h : 0 < (getBotPerformance s botId).totalTrades) :
    (getBotPerformance s botId).successRate
      = ((getBotPerformance s botId).profitableTrades : ℚ)
        / ((getBotPerformance s botId).totalTrades : ℚ) * 100 := by
  unfold getBotPerformance at h ⊢
  dsimp only at h ⊢
  rw [if_pos h]

theorem fullHistory_filter_id :
    List.filter (fun t => decide (t.botId = botOne.id)) fullHistory = fullHistory := by
  have hLid : decide (loserTrade.botId = botOne.id) = true := rfl
  have hWid : decide (winnerTrade.botId = botOne.id) = true := rfl
  unfold fullHistory
  rw [List.filter_append, filter_replicate, filter_replicate, hLid, hWid]
  rw [if_pos rfl, if_pos rfl]

theorem fullHistory_filter_profit :
    List.filter (fun t => decide (0 < t.profit)) fullHistory
      = List.replicate 500 winnerTrade := by
  have hLpr : decide ((0 : ℚ) < loserTrade.profit) = false :=
    decide_eq_false (by norm_num [loserTrade])
  have hWpr : decide ((0 : ℚ) < winnerTrade.profit) = true :=
    decide_eq_true (by norm_num [winnerTrade])
  unfold fullHistory
  rw [List.filter_append, filter_replicate, filter_replicate, hLpr, hWpr]
  rw [if_neg Bool.false_ne_true, if_pos rfl, List.nil_append]

theorem fullHistory_sum : (fullHistory.map Trade.profit).sum = 0 := by
  unfold fullHistory
  rw [List.map_append, List.map_replicate, List.map_replicate]
  have hL : Trade.profit loserTrade = -1 := rfl
  have hW : Trade.profit winnerTrade = 1 := rfl
  rw [hL, hW, List.sum_append, List.sum_replicate, List.sum_replicate]
  simp [nsmul_eq_mul]

theorem fullStore_perf :
    getBotPerformance fullStore botOne.id
      = { totalTrades := 1000, profitableTrades := 500,
          successRate := (500 : ℚ) / (1000 : ℚ) * 100, totalProfit := 0 } := by
  have hst : fullStore.tradingHistory = fullHistory := rfl
  unfold getBotPerformance
  dsimp only
  rw [hst, fullHistory_filter_id, fullHistory_filter_profit, fullHistory_sum]
  have hlen : fullHistory.length = 1000 := by
    unfold fullHistory
    rw [List.length_append, List.length_replicate, List.length_replicate]
  have hlw : (List.replicate 500 winnerTrade).length = 500 := List.length_replicate _ _
  rw [hlen, hlw]
  rw [if_pos (by norm_num : (0 : ℕ) < 1000)]
  simp only [Performance.mk.injEq]
  norm_num

/-! Claim theorems -/

/-- C1 (code_bug evidence): on a market analysis with trend -0.6 and
volatility 0.09 the sentiment classifies as strong_bear, and
makeStrategicDecisions then dispatches to the nonexistent
activateHedgingStrategies method, raising a TypeError instead of lowering any
riskLevel or logging a strategy decision. -/
theorem C1_strong_bear_crash :
    calculateMarketSentiment (-0.6) 0.09 = Sentiment.strong_bear
    ∧ makeStrategicDecisions bearishAgent defaultStore
        = .error "TypeError: this.activateHedgingStrategies is not a function" := by
  have hsent : calculateMarketSentiment (-0.6) 0.09 = Sentiment.strong_bear := by
    unfold calculateMarketSentiment
    rw [if_neg (by norm_num), if_neg (by norm_num), if_pos (by norm_num)]
  refine ⟨hsent, ?_⟩
  have hag : bearishAgent.marketAnalysis.sentiment = Sentiment.strong_bear := hsent
  unfold makeStrategicDecisions
  rw [hag]

/-- C3: starting from any riskLevel in the 0.1 to 0.9 band, every sequence of
adaptive risk adjustments (sentiment strategy moves, volatility nudges, and
optimizeBot recalibrations) keeps the riskLevel in the band after every
adjustment. -/
theorem C3_riskLevel_invariant (r : ℚ) (h1 : 0.1 ≤ r) (h2 : r ≤ 0.9) (l : List RiskAdj) :
    0.1 ≤ l.foldl (fun acc a => applyRiskAdj a acc) r
    ∧ l.foldl (fun acc a => applyRiskAdj a acc) r ≤ 0.9 := by
  induction l generalizing r with
  | nil => exact ⟨h1, h2⟩
  | cons a l ih =>
      rw [List.foldl_cons]
      obtain ⟨hl, hr⟩ := applyRiskAdj_bounds a r h1 h2
      exact ih (applyRiskAdj a r) hl hr

/-- Witness for C3 at a concrete start value and adjustment sequence. -/
theorem C3_riskLevel_invariant_witness :
    ((0.1 : ℚ) ≤ 0.5 ∧ (0.5 : ℚ) ≤ 0.9)
    ∧ (0.1 ≤ [RiskAdj.defensive, RiskAdj.optimizeUp, RiskAdj.nudgeHighVol].foldl
          (fun acc a => applyRiskAdj a acc) 0.5
      ∧ [RiskAdj.defensive, RiskAdj.optimizeUp, RiskAdj.nudgeHighVol].foldl
          (fun acc a => applyRiskAdj a acc) 0.5 ≤ 0.9) :=
  ⟨⟨by norm_num, by norm_num⟩,
    C3_riskLevel_invariant 0.5 (by norm_num) (by norm_num)
      [RiskAdj.defensive, RiskAdj.optimizeUp, RiskAdj.nudgeHighVol]⟩

/-- C9: an import file missing any of the required keys bots, tradingHistory
or aiDecisions is rejected: importData reports failure and returns the store
deeply unchanged, with no persistence write. -/
theorem C9_import_missing_key (s : Store) (f : ImportFile)
    (h : f.bots = none ∨ f.tradingHistory = none ∨ f.aiDecisions = none) :
    importData s f = (s, false) := by
  obtain ⟨ob, ot, oa⟩ := f
  rcases h with h | h | h
  · subst h; rfl
  · subst h; cases ob <;> rfl
  · subst h; cases ob <;> cases ot <;> rfl

/-- Witness for C9 on a file missing aiDecisions. -/
theorem C9_import_missing_key_witness :
    ((ImportFile.mk (some defaultBots) (some []) none).bots = none
      ∨ (ImportFile.mk (some defaultBots) (some []) none).tradingHistory = none
      ∨ (ImportFile.mk (some defaultBots) (some []) none).aiDecisions = none)
    ∧ importData defaultStore (ImportFile.mk (some defaultBots) (some []) none)
        = (defaultStore, false) :=
  ⟨Or.inr (Or.inr rfl),
    C9_import_missing_key defaultStore _ (Or.inr (Or.inr rfl))⟩

/-- C10: when the adaptive agent has no learning model for a bot id or the
fleet has no matching bot, getConfidence returns exactly 50, bypassing the
performance adjustments, the riskLevel multiplication and the 20 to 95
clamp. -/
theorem C10_getConfidence_unknown (ag : Agent) (s : Store) (botId : ℕ)
    (h : ag.botModels.find? (fun p => decide (p.1 = botId)) = none
      ∨ s.bots.find? (fun b => decide (b.id = botId)) = none) :
    getConfidence ag s botId = 50 := by
  unfold getConfidence
  rcases h with h | h
  · rw [h]
  · rw [h]
    cases ag.botModels.find? (fun p => decide (p.1 = botId)) <;> rfl

/-- C8 counterexample: toggleBot called with an id absent from the fleet
silently leaves the engine unchanged, and the value it returns (undefined,
since the function body has no return statement) is identical to the value
returned for a present id, so no failure indicator reaches the caller. -/
theorem C8_counterexample :
    toggleBot defaultEngine 99 = defaultEngine
    ∧ toggleBotReturn defaultEngine 99 = toggleBotReturn defaultEngine 1 :=
  ⟨rfl, rfl⟩

/-- C8 amended: for a bot id not present in the fleet, updateBot returns false
with the store unchanged, optimizeBot returns a success false result with the
store unchanged, and toggleBot never raises but silently returns the engine
unchanged, its undefined return value carrying no failure indicator. -/
theorem C8_unknown_id (ag : Agent) (s : Store) (e : Engine) (botId : ℕ) (f : Bot → Bot)
    (hs : s.bots.find? (fun b => decide (b.id = botId)) = none)
    (he : e.store.bots.find? (fun b => decide (b.id = botId)) = none) :
    updateBotWith s botId f = (s, false)
    ∧ (optimizeBot ag s botId).1.success = false
    ∧ (optimizeBot ag s botId).2 = s
    ∧ toggleBot e botId = e := by
  refine ⟨?_, ?_, ?_, ?_⟩
  · unfold updateBotWith
    rw [hs]
  · unfold optimizeBot
    rw [hs]
  · unfold optimizeBot
    rw [hs]
  · unfold toggleBot
    rw [he]

/-- Witness for C8 amended at a concrete absent id. -/
theorem C8_unknown_id_witness :
    (defaultStore.bots.find? (fun b => decide (b.id = 42)) = none
      ∧ defaultEngine.store.bots.find? (fun b => decide (b.id = 42)) = none)
    ∧ (updateBotWith defaultStore 42 id = (defaultStore, false)
      ∧ (optimizeBot emptyAgent defaultStore 42).1.success = false
      ∧ (optimizeBot emptyAgent defaultStore 42).2 = defaultStore
      ∧ toggleBot defaultEngine 42 = defaultEngine) :=
  ⟨⟨rfl, rfl⟩, C8_unknown_id emptyAgent defaultStore defaultEngine 42 id rfl rfl⟩

/-- C2 counterexample: starting the default engine (not running) appends two
system category decisions, the fleet activation one and the monitoring startup
one, so the whole start operation does not append exactly one. -/
theorem C2_counterexample :
    defaultEngine.isRunning = false
    ∧ countSystem (startAllBots defaultEngine).store.aiDecisions = 2 :=
  ⟨rfl, rfl⟩

/-- C2 amended: from any non-running engine with distinct bot ids and a
decision log of at most 98 entries, start sets the running flag, sets every
bot active, and appends exactly two system category decisions (fleet
activation and monitoring startup). -/
theorem C2_start_two_system_decisions (e : Engine) (hrun : e.isRunning = false)
    (hnd : (e.store.bots.map Bot.id).Nodup)
    (hlen : e.store.aiDecisions.length ≤ 98) :
    (startAllBots e).isRunning = true
    ∧ (∀ b ∈ (startAllBots e).store.bots, b.status = Status.active)
    ∧ (startAllBots e).store.aiDecisions
        = monitoringDecision :: fleetActivatedDecision :: e.store.aiDecisions
    ∧ countSystem (startAllBots e).store.aiDecisions
        = countSystem e.store.aiDecisions + 2 := by
  have hfold := forEachUpdate_eq (fun _ => true)
    (fun _ c => { c with status := Status.active }) (fun _ _ => rfl) e.store hnd
  have hstart : startAllBots e =
      { store := startMonitoring (addAIDecision (forEachUpdate (fun _ => true)
          (fun _ c => { c with status := Status.active }) e.store) fleetActivatedDecision),
        isRunning := true } := by
    unfold startAllBots
    rw [hrun]
    rfl
  have hdec1 : (fleetActivatedDecision :: e.store.aiDecisions).take 100
      = fleetActivatedDecision :: e.store.aiDecisions :=
    List.take_of_length_le (by simp; omega)
  have hdec2 : (monitoringDecision :: fleetActivatedDecision :: e.store.aiDecisions).take 100
      = monitoringDecision :: fleetActivatedDecision :: e.store.aiDecisions :=
    List.take_of_length_le (by simp; omega)
  have hdecs : (startAllBots e).store.aiDecisions
      = monitoringDecision :: fleetActivatedDecision :: e.store.aiDecisions := by
    rw [hstart]
    simp only [startMonitoring, addAIDecision, saveData, hfold]
    rw [hdec1, hdec2]
  refine ⟨by rw [hstart], ?_, hdecs, ?_⟩
  · intro b hb
    have hbots : (startAllBots e).store.bots
        = e.store.bots.map (fun b => if (fun (_ : Bot) => true) b = true
            then { b with status := Status.active } else b) := by
      rw [hstart]
      simp only [startMonitoring, addAIDecision, saveData, hfold]
    rw [hbots] at hb
    obtain ⟨c, _, rfl⟩ := List.mem_map.mp hb
    rfl
  · rw [hdecs]
    simp [countSystem, List.filter, fleetActivatedDecision, monitoringDecision]

/-- Witness for C2 amended on the default engine. -/
theorem C2_start_two_system_decisions_witness :
    (defaultEngine.isRunning = false
      ∧ (defaultEngine.store.bots.map Bot.id).Nodup
      ∧ defaultEngine.store.aiDecisions.length ≤ 98)
    ∧ ((startAllBots defaultEngine).isRunning = true
      ∧ (∀ b ∈ (startAllBots defaultEngine).store.bots, b.status = Status.active)
      ∧ (startAllBots defaultEngine).store.aiDecisions
          = monitoringDecision :: fleetActivatedDecision :: defaultEngine.store.aiDecisions
      ∧ countSystem (startAllBots defaultEngine).store.aiDecisions
          = countSystem defaultEngine.store.aiDecisions + 2) :=
  ⟨⟨rfl, by decide, by decide⟩,
    C2_start_two_system_decisions defaultEngine rfl (by decide) (by decide)⟩

/-- C7: toggling a bot id present in a fleet with distinct ids flips only that
bot status (all its other fields kept), leaves every other bot unchanged,
leaves the running flag and the trading history unchanged, and appends exactly
one bot_control decision naming the bot and its new state. -/
theorem C7_toggleBot_frame (e : Engine) (b : Bot) (hb : b ∈ e.store.bots)
    (hnd : (e.store.bots.map Bot.id).Nodup) :
    (toggleBot e b.id).isRunning = e.isRunning
    ∧ (toggleBot e b.id).store.bots
        = e.store.bots.map (fun c =>
            if c.id = b.id then { c with status := flipStatus b.status } else c)
    ∧ (toggleBot e b.id).store.aiDecisions
        = (toggleDecision b.name (flipStatus b.status) :: e.store.aiDecisions).take 100
    ∧ (toggleBot e b.id).store.tradingHistory = e.store.tradingHistory := by
  have hfind := find?_id_of_nodup e.store.bots hnd b hb
  have hmap := updateFirst_eq_map_of_nodup b.id
      (fun c => { c with status := flipStatus b.status }) e.store.bots hnd
  unfold toggleBot
  rw [hfind]
  unfold updateBotWith
  rw [hfind]
  simp only [addAIDecision, saveData]
  rw [hmap]
  exact ⟨trivial, rfl, trivial, trivial⟩

/-- Witness for C7 on the first default bot. -/
theorem C7_toggleBot_frame_witness :
    (alphaBot ∈ defaultEngine.store.bots)
    ∧ ((defaultEngine.store.bots.map Bot.id).Nodup)
    ∧ ((toggleBot defaultEngine alphaBot.id).isRunning = defaultEngine.isRunning
      ∧ (toggleBot defaultEngine alphaBot.id).store.bots
          = defaultEngine.store.bots.map (fun c =>
              if c.id = alphaBot.id then { c with status := flipStatus alphaBot.status } else c)
      ∧ (toggleBot defaultEngine alphaBot.id).store.aiDecisions
          = (toggleDecision alphaBot.name (flipStatus alphaBot.status)
              :: defaultEngine.store.aiDecisions).take 100
      ∧ (toggleBot defaultEngine alphaBot.id).store.tradingHistory
          = defaultEngine.store.tradingHistory) :=
  ⟨List.mem_cons_self _ _, by decide,
    C7_toggleBot_frame defaultEngine alphaBot (List.mem_cons_self _ _) (by decide)⟩

/-- C6 counterexample: after learning the first outcome the history holds one
entry, yet the rolling metrics are not recomputed because updateBotModel
returns early below 10 entries: the stored winRate stays 0 while a recompute
over the min(20, n) most recent entries would give 100. -/
theorem C6_counterexample :
    (learnFromTrade ⟨[], ⟨0, 0, 0⟩⟩ 5).metrics.winRate = 0
    ∧ (computeMetrics (lastN (min 20 (learnFromTrade ⟨[], ⟨0, 0, 0⟩⟩ 5).tradeHistory.length)
        (learnFromTrade ⟨[], ⟨0, 0, 0⟩⟩ 5).tradeHistory)).winRate = 100 := by
  have hlearn : learnFromTrade ⟨[], ⟨0, 0, 0⟩⟩ 5 = ⟨[5], ⟨0, 0, 0⟩⟩ := by
    simp [learnFromTrade, updateBotModel]
  rw [hlearn]
  refine ⟨rfl, ?_⟩
  show (computeMetrics (lastN (min 20 ([5] : List ℚ).length) [5])).winRate = 100
  have hlast : lastN (min 20 ([5] : List ℚ).length) [5] = [5] := by simp [lastN]
  rw [hlast]
  have hd : (decide ((0 : ℚ) < 5)) = true := decide_eq_true (by norm_num)
  simp [computeMetrics, List.filter, hd]

/-- C6 amended: after every learned trade the rolling metrics are recomputed
over exactly the min(20, n) most recent entries of the capped history only
when the post-append history length n is at least 10; below 10 entries
updateBotModel returns early and the metrics keep their previous values. -/
theorem C6_metrics_recompute (m : BotModel) (p : ℚ) :
    (10 ≤ (learnFromTrade m p).tradeHistory.length →
      (learnFromTrade m p).metrics
        = computeMetrics (lastN 20 (learnFromTrade m p).tradeHistory))
    ∧ ((learnFromTrade m p).tradeHistory.length < 10 →
      (learnFromTrade m p).metrics = m.metrics)
    ∧ (lastN 20 (learnFromTrade m p).tradeHistory).length
        = min 20 (learnFromTrade m p).tradeHistory.length := by
  have hrepr : learnFromTrade m p = updateBotModel
      { m with tradeHistory :=
          if 100 < (m.tradeHistory ++ [p]).length then
            (m.tradeHistory ++ [p]).drop ((m.tradeHistory ++ [p]).length - 100)
          else m.tradeHistory ++ [p] } := rfl
  rw [hrepr, updateBotModel_tradeHistory]
  refine ⟨?_, ?_, lastN_length _ _⟩
  · intro hge
    unfold updateBotModel
    rw [if_neg (by omega)]
  · intro hlt
    unfold updateBotModel
    rw [if_pos hlt]

/-- Witness for C6 amended: the tenth learned outcome triggers the recompute. -/
theorem C6_metrics_recompute_witness :
    (10 ≤ (learnFromTrade nineTradeModel 2).tradeHistory.length)
    ∧ (learnFromTrade nineTradeModel 2).metrics
        = computeMetrics (lastN 20 (learnFromTrade nineTradeModel 2).tradeHistory) :=
  ⟨by decide, (C6_metrics_recompute nineTradeModel 2).1 (by decide)⟩

/-- C4 counterexample: with the trading history at its 1000 entry cap, one
further losing trade of bot 1 stores a success rate computed from the
pre-eviction counts plus the new trade (49.95), while recomputing over the bot
trades left in the capped log gives 49.9, a deviation of 0.05, beyond the 0.01
rounding tolerance. -/
theorem C4_counterexample :
    storedRate (executeTrade fullStore botOne (-1)) botOne.id = 999 / 20
    ∧ (getBotPerformance (executeTrade fullStore botOne (-1)) botOne.id).successRate = 499 / 10
    ∧ ¬ |storedRate (executeTrade fullStore botOne (-1)) botOne.id
          - (getBotPerformance (executeTrade fullStore botOne (-1)) botOne.id).successRate|
        ≤ 1 / 100 := by
  have hfind : fullStore.bots.find? (fun c => decide (c.id = botOne.id)) = some botOne := rfl
  have hr2 : ∀ q : ℚ, q = 50000 / 1001 → round2 q = 999 / 20 := by
    intro q hq
    subst hq
    unfold round2
    have h1 : (50000 : ℚ) / 1001 * 100 = 5000000 / 1001 := by norm_num
    rw [h1, round_eq]
    have h2 : (5000000 : ℚ) / 1001 + 1 / 2 = 10001001 / 2002 := by norm_num
    rw [h2]
    have h3 : ⌊(10001001 : ℚ) / 2002⌋ = 4995 := by
      rw [Int.floor_eq_iff]
      refine ⟨by norm_num, by norm_num⟩
    rw [h3]
    norm_num
  have hstored : storedRate (executeTrade fullStore botOne (-1)) botOne.id = 999 / 20 := by
    rw [executeTrade_storedRate fullStore botOne (-1) botOne hfind, fullStore_perf]
    dsimp only
    rw [if_neg (by norm_num : ¬ (0 : ℚ) < -1)]
    exact hr2 _ (by norm_num)
  have htake : (executeTrade fullStore botOne (-1)).tradingHistory
      = ({ botId := botOne.id, profit := -1 } : Trade)
          :: (List.replicate 500 loserTrade ++ List.replicate 499 winnerTrade) := by
    have h999 : fullHistory.take 999
        = List.replicate 500 loserTrade ++ List.replicate 499 winnerTrade := by
      unfold fullHistory
      rw [List.take_append_eq_append_take]
      rw [List.take_of_length_le (by rw [List.length_replicate]; norm_num)]
      rw [List.length_replicate, List.take_replicate]
      norm_num
    rw [executeTrade_tradingHistory]
    show (({ botId := botOne.id, profit := -1 } : Trade) :: fullHistory).take (999 + 1) = _
    rw [List.take_succ_cons, h999]
  have hfid : List.filter (fun t => decide (t.botId = botOne.id))
      (({ botId := botOne.id, profit := -1 } : Trade)
        :: (List.replicate 500 loserTrade ++ List.replicate 499 winnerTrade))
      = ({ botId := botOne.id, profit := -1 } : Trade)
        :: (List.replicate 500 loserTrade ++ List.replicate 499 winnerTrade) := by
    rw [List.filter_cons,
      show decide (({ botId := botOne.id, profit := -1 } : Trade).botId = botOne.id) = true
        from rfl,
      if_pos rfl,
      List.filter_append, filter_replicate, filter_replicate,
      show decide (loserTrade.botId = botOne.id) = true from rfl,
      show decide (winnerTrade.botId = botOne.id) = true from rfl,
      if_pos rfl, if_pos rfl]
  have hfpr : List.filter (fun t => decide (0 < t.profit))
      (({ botId := botOne.id, profit := -1 } : Trade)
        :: (List.replicate 500 loserTrade ++ List.replicate 499 winnerTrade))
      = List.replicate 499 winnerTrade := by
    rw [List.filter_cons,
      show decide ((0 : ℚ) < ({ botId := botOne.id, profit := -1 } : Trade).profit) = false
        from decide_eq_false (by norm_num),
      if_neg Bool.false_ne_true,
      List.filter_append, filter_replicate, filter_replicate,
      show decide ((0 : ℚ) < loserTrade.profit) = false
        from decide_eq_false (by norm_num [loserTrade]),
      show decide ((0 : ℚ) < winnerTrade.profit) = true
        from decide_eq_true (by norm_num [winnerTrade]),
      if_neg Bool.false_ne_true, if_pos rfl, List.nil_append]
  have hsum1 : (List.map Trade.profit (({ botId := botOne.id, profit := -1 } : Trade)
      :: (List.replicate 500 loserTrade ++ List.replicate 499 winnerTrade))).sum = -2 := by
    rw [List.map_cons, List.map_append, List.map_replicate, List.map_replicate,
      show Trade.profit loserTrade = -1 from rfl,
      show Trade.profit winnerTrade = 1 from rfl,
      List.sum_cons, List.sum_append, List.sum_replicate, List.sum_replicate]
    dsimp only
    simp only [nsmul_eq_mul]
    norm_num
  have hperf1 : getBotPerformance (executeTrade fullStore botOne (-1)) botOne.id
      = { totalTrades := 1000, profitableTrades := 499,
          successRate := (499 : ℚ) / (1000 : ℚ) * 100, totalProfit := -2 } := by
    unfold getBotPerformance
    dsimp only
    rw [htake, hfid, hfpr, hsum1]
    rw [List.length_cons, List.length_append, List.length_replicate, List.length_replicate]
    rw [if_pos (by norm_num : (0 : ℕ) < 500 + 499 + 1)]
    simp only [Performance.mk.injEq]
    norm_num
  have hrecomputed : (getBotPerformance (executeTrade fullStore botOne (-1))
      botOne.id).successRate = 499 / 10 := by
    rw [hperf1]
    norm_num
  refine ⟨hstored, hrecomputed, ?_⟩
  rw [hstored, hrecomputed]
  have hdiff : (999 : ℚ) / 20 - 499 / 10 = 1 / 20 := by norm_num
  rw [hdiff, abs_of_pos (by norm_num)]
  norm_num

/-- C4 amended: as long as appending the trade does not push the history past
the 1000 entry cap (so no entry of the bot is evicted), the success rate
stored by the trading cycle stays within the 0.01 rounding tolerance of the
rate recomputed from the logged trades of that bot; at the cap, eviction can
break this (see the counterexample). -/
theorem C4_successRate_tracks_log (s : Store) (bot : Bot) (profit : ℚ) (b : Bot)
    (hfind : s.bots.find? (fun c => decide (c.id = bot.id)) = some b)
    (hlen : s.tradingHistory.length < 1000) :
    |storedRate (executeTrade s bot profit) bot.id
      - (getBotPerformance (executeTrade s bot profit) bot.id).successRate| ≤ 1 / 100 := by
  have hhist : (executeTrade s bot profit).tradingHistory
      = { botId := bot.id, profit := profit } :: s.tradingHistory := by
    rw [executeTrade_tradingHistory]
    exact List.take_of_length_le (by simp; omega)
  obtain ⟨ht, hp⟩ := getBotPerformance_cons s (executeTrade s bot profit) bot.id profit hhist
  have hpos : 0 < (getBotPerformance (executeTrade s bot profit) bot.id).totalTrades := by
    omega
  rw [executeTrade_storedRate s bot profit b hfind,
    getBotPerformance_successRate _ _ hpos, ht, hp]
  exact abs_round2_sub_le _

/-- Witness for C4 amended: the first trade of the default store. -/
theorem C4_successRate_tracks_log_witness :
    (defaultStore.bots.find? (fun c => decide (c.id = alphaBot.id)) = some alphaBot
      ∧ defaultStore.tradingHistory.length < 1000)
    ∧ |storedRate (executeTrade defaultStore alphaBot 2) alphaBot.id
        - (getBotPerformance (executeTrade defaultStore alphaBot 2) alphaBot.id).successRate|
      ≤ 1 / 100 :=
  ⟨⟨rfl, by decide⟩,
    C4_successRate_tracks_log defaultStore alphaBot 2 alphaBot rfl (by decide)⟩

/-- Witness for C10 on the default fleet and an agent with no models. -/
theorem C10_getConfidence_unknown_witness :
    (emptyAgent.botModels.find? (fun p => decide (p.1 = 7)) = none
      ∨ defaultStore.bots.find? (fun b => decide (b.id = 7)) = none)
    ∧ getConfidence emptyAgent defaultStore 7 = 50 :=
  ⟨Or.inl rfl, C10_getConfidence_unknown emptyAgent defaultStore 7 (Or.inl rfl)⟩

end Fleet
